import Mathlib

/-!
Verification of the salary-dashboard data pipeline
(DegsTerin/data_visualization_dashboards).

The dashboard pages load a salary table, filter it by the user-selected
values of four categorical dimensions, and compute summary statistics,
grouped means, a top-N ranking, a year-over-year growth figure and a
percentile-trimmed view of the data.  This file embeds those
computations over an explicit list-of-records table and proves the
specified properties about them.  Salaries are modelled as rationals;
the pandas operations are translated clause by clause: `groupby` sorts
group keys ascending, `nlargest` keeps first occurrences on ties,
`Series.mode` returns the modes sorted ascending, and `quantile` uses
the linear-interpolation method.
-/

namespace Dashboard

open List

/-- One row of the salary dataset, with the columns the verified
computations read (src/Home.py `REQUIRED_COLUMNS`; the remote-work and
residence columns are only ever counted or grouped verbatim and no
verified property touches them, so they are omitted from the record). -/
structure Record where
  Year : Int
  Experience_Level : String
  Employment_Type : String
  Company_Size : String
  Salary_In_Usd : ℚ
  Job_Title : String
deriving DecidableEq, Repr

abbrev Table := List Record

/-- src/Home.py `filter_data` (and the identical `filtrar` of
src/pages/0_Main_Courts.py): the conjunction of four `isin` masks,
keeping the original row order. -/
def filter_data (df : Table) (years : List Int)
    (experience_levels employment_types company_sizes : List String) : Table :=
  df.filter fun r =>
    decide (r.Year ∈ years) && decide (r.Experience_Level ∈ experience_levels) &&
    decide (r.Employment_Type ∈ employment_types) && decide (r.Company_Size ∈ company_sizes)

/-- Mean of a list of rationals (pandas `Series.mean`); the pages only
apply it after guarding against the empty table. -/
def mean (l : List ℚ) : ℚ := l.sum / l.length

/-- Median (pandas `Series.median`): middle element of the sorted
values, or the average of the two middle elements for even length. -/
def median (l : List ℚ) : ℚ :=
  let s := l.insertionSort (· ≤ ·)
  if l.length % 2 = 1 then s.getD (l.length / 2) 0
  else (s.getD (l.length / 2 - 1) 0 + s.getD (l.length / 2) 0) / 2

/-- Maximum of a list of rationals (pandas `Series.max` on the pages'
nonempty tables). -/
def listMax : List ℚ → ℚ
  | [] => 0
  | x :: xs => xs.foldl max x

/-- Alphabetical order on strings, phrased on the underlying character
lists; `strLe_iff` below shows it is the standard order on `String`. -/
def strLe (a b : String) : Prop := a.toList ≤ b.toList

instance : DecidableRel strLe :=
  fun a b => inferInstanceAs (Decidable (a.toList ≤ b.toList))

instance : IsTotal String strLe := ⟨fun a b => le_total a.toList b.toList⟩

instance : IsTrans String strLe := ⟨fun _ _ _ h1 h2 => le_trans h1 h2⟩

/-- Highest number of occurrences of any value in the list. -/
def maxCount (l : List String) : Nat :=
  (l.dedup.map fun v => l.count v).foldr max 0

/-- The distinct values attaining the highest occurrence count. -/
def modeSet (l : List String) : List String :=
  l.dedup.filter fun v => decide (l.count v = maxCount l)

/-- pandas `Series.mode`: the most frequent values, sorted ascending. -/
def modeSorted (l : List String) : List String :=
  (modeSet l).insertionSort strLe

/-- The five KPI scalars of src/Home.py lines 102-111, named as in the
source. -/
structure KPIs where
  average_salary : ℚ
  median_salary : ℚ
  maximum_salary : ℚ
  total_records : Nat
  most_frequent_job_title : String
deriving DecidableEq, Repr

/-- src/Home.py lines 102-111: on an empty filtered table every KPI is
zero and the mode placeholder is "-"; otherwise the KPIs are computed
from the salary column and `Job_Title.mode().iloc[0]`. -/
def summaryStats (T : Table) : KPIs :=
  if T = [] then ⟨0, 0, 0, 0, "-"⟩
  else
    ⟨mean (T.map Record.Salary_In_Usd), median (T.map Record.Salary_In_Usd),
      listMax (T.map Record.Salary_In_Usd), T.length,
      (modeSorted (T.map Record.Job_Title)).headD "-"⟩

/-- pandas `Series.quantile(p)` with the default linear interpolation:
with the values sorted ascending and `h = p * (n - 1)`, the result is
`s[⌊h⌋] + (h - ⌊h⌋) * (s[⌊h⌋ + 1] - s[⌊h⌋])` (the out-of-range access
at `p = 1` is harmless because the fractional part is then zero). -/
def quantile (p : ℚ) (l : List ℚ) : ℚ :=
  let s := l.insertionSort (· ≤ ·)
  let h : ℚ := p * ((l.length : ℚ) - 1)
  let i : Nat := (⌊h⌋).toNat
  s.getD i 0 + (h - ⌊h⌋) * (s.getD (i + 1) (s.getD i 0) - s.getD i 0)

/-- src/Home.py lines 141-145: the visualization table is the filtered
table itself when that is empty (no quantile is computed), otherwise
the rows whose salary is at or below the `p`-th quantile of the salary
column.  The page fixes `p = 0.99`; the spec names the operation
`trimToPercentile(T, p)`. -/
def trimToPercentile (T : Table) (p : ℚ) : Table :=
  if T = [] then T
  else T.filter fun r =>
    decide (r.Salary_In_Usd ≤ quantile p (T.map Record.Salary_In_Usd))

/-- The two derived tables of src/Home.py the charts and KPI row read:
the KPI scalars and the trimmed visualization table `df_vis`. -/
structure HomeOutput where
  kpis : KPIs
  df_vis : Table
deriving Repr

/-- src/Home.py main flow: the KPI scalars are computed from the
filtered table (lines 102-111) and the chart table `df_vis` from the
0.99-quantile trim of that same filtered table (lines 141-145). -/
def homePage (df : Table) (years : List Int)
    (els ets css : List String) : HomeOutput :=
  ⟨summaryStats (filter_data df years els ets css),
   trimToPercentile (filter_data df years els ets css) (99 / 100)⟩

/-- Salaries of the rows of the given year. -/
def yearSalaries (T : Table) (y : Int) : List ℚ :=
  (T.filter fun r => decide (r.Year = y)).map Record.Salary_In_Usd

/-- pandas `df.groupby("Year")["Salary_In_Usd"].mean()`: the per-year
mean salaries, years ascending (`groupby` sorts its keys). -/
def yearlyMeanSalaries (T : Table) : List ℚ :=
  ((T.map Record.Year).dedup.insertionSort (· ≤ ·)).map
    fun y => mean (yearSalaries T y)

/-- pandas `Series.pct_change()` without its leading `NaN` entry: the
relative change between each pair of consecutive entries. -/
def pct_change (l : List ℚ) : List ℚ :=
  List.zipWith (fun prev cur => cur / prev - 1) l l.tail

/-- src/Home.py lines 123-129: the growth figure
`groupby("Year")["Salary_In_Usd"].mean().pct_change().mean() * 100`,
computed only when the filtered table has at least two distinct years
(`nunique() > 1`); pandas `mean()` skips the leading `NaN` entry of
`pct_change`, so it averages exactly the consecutive-year changes. -/
def growth (T : Table) : Option ℚ :=
  if 2 ≤ (T.map Record.Year).dedup.length then
    some (mean (pct_change (yearlyMeanSalaries T)) * 100)
  else none

/-- Salaries of the rows with the given job title. -/
def titleSalaries (T : Table) (k : String) : List ℚ :=
  (T.filter fun r => decide (r.Job_Title = k)).map Record.Salary_In_Usd

/-- pandas `df.groupby("Job_Title")["Salary_In_Usd"].mean()`: one
(title, mean) pair per distinct title, titles sorted ascending
(`groupby`'s default `sort=True`). -/
def groupMeanByTitle (T : Table) : List (String × ℚ) :=
  ((T.map Record.Job_Title).dedup.insertionSort strLe).map
    fun k => (k, mean (titleSalaries T k))

/-- Descending-by-mean comparison: `List.insertionSort` with this
relation is the stable descending sort underlying pandas
`nlargest(n, col, keep='first')`. -/
def descMean (a b : String × ℚ) : Prop := b.2 ≤ a.2

instance : DecidableRel descMean :=
  fun a b => inferInstanceAs (Decidable (b.2 ≤ a.2))

instance : IsTotal (String × ℚ) descMean :=
  ⟨fun a b => le_total b.2 a.2⟩

instance : IsTrans (String × ℚ) descMean :=
  ⟨fun _ _ _ hab hbc => le_trans hbc hab⟩

/-- Ascending-by-mean comparison, used by the final display reordering
`sort_values("Salary_In_Usd")`. -/
def ascMean (a b : String × ℚ) : Prop := a.2 ≤ b.2

instance : DecidableRel ascMean :=
  fun a b => inferInstanceAs (Decidable (a.2 ≤ b.2))

/-- pandas `nlargest(n, "Salary_In_Usd")` with the default
`keep='first'`: stable descending sort by mean, then the first `n`. -/
def nlargestByMean (n : Nat) (l : List (String × ℚ)) : List (String × ℚ) :=
  (l.insertionSort descMean).take n

/-- src/Home.py lines 155-161 `top_job_titles` (and `top_cargos` of
src/pages/0_Main_Courts.py lines 126-131): per-title mean salaries,
`nlargest(10, ...)` generalised to `n`, then re-sorted ascending by
mean for the horizontal-bar display. -/
def top_job_titles (T : Table) (n : Nat) : List (String × ℚ) :=
  (nlargestByMean n (groupMeanByTitle T)).insertionSort ascMean

/-- Strict "ranked before" order on (title, mean) pairs: strictly
larger mean, or equal mean and alphabetically earlier title. -/
def meanKeyOrder (a b : String × ℚ) : Prop :=
  b.2 < a.2 ∨ (a.2 = b.2 ∧ a.1 < b.1)

/-- src/pages/3_Role_Comparison.py line 65: the relative-difference
insight `((avg_a - avg_b) / avg_b) * 100`, computed without any guard
on `avg_b`. -/
def diff (avg_a avg_b : ℚ) : ℚ := ((avg_a - avg_b) / avg_b) * 100

/-- src/pages/0_Main_Courts.py line 193: the relative difference
`(comp.loc[1, "media"] / comp.loc[0, "media"] - 1) * 100` between the
two compared groups' mean salaries, computed without any guard. -/
def delta (media0 media1 : ℚ) : ℚ := (media1 / media0 - 1) * 100

/-- The role-comparison pages always produce a numeric insight value:
no code path yields an "undefined" marker (in floating point a zero
`avg_b` propagates as infinity or NaN into the rendered message).
Wrapping the number in `some` makes the code's outcome comparable with
the spec's undefined-signalling contract. -/
def roleComparisonInsight (avg_a avg_b : ℚ) : Option ℚ :=
  some (diff avg_a avg_b)

/-- Modelled from the spec (section 4.2): `compareTwoGroups`' derived
relative-difference percentage `(meanA/meanB - 1) * 100`, with
`meanB = 0` signalled as undefined rather than computed. -/
def compareTwoGroupsSpec (meanA meanB : ℚ) : Option ℚ :=
  if meanB = 0 then none else some ((meanA / meanB - 1) * 100)

/-- src/Home.py lines 39-42 `REQUIRED_COLUMNS`. -/
def REQUIRED_COLUMNS : List String :=
  ["Year", "Experience_Level", "Employment_Type", "Company_Size",
   "Salary_In_Usd", "Job_Title", "Remote_Ratio", "Employee_Residence_Iso3"]

/-- src/pages/0_Main_Courts.py lines 40-43 `COLUNAS`. -/
def COLUNAS : List String :=
  ["ano", "senioridade", "contrato", "tamanho_empresa",
   "usd", "cargo", "remoto", "residencia_iso3"]

/-- Outcome of a page's load-time schema validation step: `halted`
means the page stopped before any filtering or aggregation ran. -/
inductive PageOutcome
| halted
| rendered
deriving DecidableEq, Repr

/-- src/Home.py lines 44-46: if any required column is missing from the
loaded dataset the page reports an error and stops (`st.stop()`) before
the sidebar, the filter and every aggregation. -/
def homeSchemaCheck (cols : List String) : PageOutcome :=
  if REQUIRED_COLUMNS.all fun c => decide (c ∈ cols) then .rendered else .halted

/-- src/pages/0_Main_Courts.py lines 45-47: the same check against the
Portuguese column names. -/
def mainCourtsSchemaCheck (cols : List String) : PageOutcome :=
  if COLUNAS.all fun c => decide (c ∈ cols) then .rendered else .halted

/-- src/pages/1_Overview.py: the page loads the dataset and proceeds
straight to its KPI and histogram computations; it contains no schema
validation step at all. -/
def overviewSchemaCheck (_cols : List String) : PageOutcome := .rendered

/-- src/pages/2_Work_Mode.py: no schema validation step. -/
def workModeSchemaCheck (_cols : List String) : PageOutcome := .rendered

/-- src/pages/3_Role_Comparison.py: no schema validation step. -/
def roleComparisonSchemaCheck (_cols : List String) : PageOutcome := .rendered

/-- Two-row table with the job titles tied on mean salary and title
"B" encountered before title "A". -/
def tieTable : Table :=
  [⟨2021, "SE", "FT", "M", 200, "B"⟩, ⟨2021, "SE", "FT", "M", 200, "A"⟩]

/-- Three-row, three-title example table: means A = 100, B = 300,
C = 200. -/
def ex3Table : Table :=
  [⟨2021, "SE", "FT", "M", 100, "A"⟩, ⟨2021, "SE", "FT", "M", 300, "B"⟩,
   ⟨2021, "SE", "FT", "M", 200, "C"⟩]

/-- Three-row table realising the spec's growth example: per-year mean
salaries 100 (2021), 110 (2022), 121 (2023). -/
def growthTable : Table :=
  [⟨2021, "SE", "FT", "M", 100, "A"⟩, ⟨2022, "SE", "FT", "M", 110, "A"⟩,
   ⟨2023, "SE", "FT", "M", 121, "A"⟩]

/-- Two-row table whose 0.99-quantile trim drops the larger salary:
the threshold is 0 + 0.99 * (100 - 0) = 99. -/
def outlierTable : Table :=
  [⟨2021, "SE", "FT", "M", 0, "A"⟩, ⟨2021, "SE", "FT", "M", 100, "A"⟩]

section Theorems

theorem mem_filter_data {df : Table} {years : List Int}
    {els ets css : List String} {r : Record} :
    r ∈ filter_data df years els ets css ↔
      r ∈ df ∧ r.Year ∈ years ∧ r.Experience_Level ∈ els ∧
        r.Employment_Type ∈ ets ∧ r.Company_Size ∈ css := by
  simp [filter_data, List.mem_filter, and_assoc]

/-- C1: `filter_data` returns exactly the rows whose value in each of
the four dimensions is a member of that dimension's accepted set, in
the same relative order as the input (the result is a sublist of the
input), and if any dimension's accepted set is empty the result is the
empty table. -/
theorem C1_filter_data_spec (df : Table) (years : List Int)
    (els ets css : List String) :
    (∀ r, r ∈ filter_data df years els ets css ↔
      r ∈ df ∧ r.Year ∈ years ∧ r.Experience_Level ∈ els ∧
        r.Employment_Type ∈ ets ∧ r.Company_Size ∈ css) ∧
    (filter_data df years els ets css).Sublist df ∧
    ((years = [] ∨ els = [] ∨ ets = [] ∨ css = []) →
      filter_data df years els ets css = []) := by
  refine ⟨fun r => mem_filter_data, List.filter_sublist _, fun h => ?_⟩
  apply List.eq_nil_iff_forall_not_mem.mpr
  intro r hr
  rw [mem_filter_data] at hr
  rcases h with h | h | h | h <;> subst h <;> simp_all

/-- Concrete instantiation of `C1_filter_data_spec`: an empty accepted
set for the year dimension filters out every row. -/
theorem C1_filter_data_spec_witness :
    filter_data [⟨2021, "SE", "FT", "M", 100, "Data Scientist"⟩]
      [] ["SE"] ["FT"] ["M"] = [] :=
  (C1_filter_data_spec [⟨2021, "SE", "FT", "M", 100, "Data Scientist"⟩]
    [] ["SE"] ["FT"] ["M"]).2.2 (Or.inl rfl)

/-- C9: filtering with a fixed selection is idempotent: filtering an
already-filtered table with the same selection returns it unchanged. -/
theorem C9_filter_data_idempotent (df : Table) (years : List Int)
    (els ets css : List String) :
    filter_data (filter_data df years els ets css) years els ets css =
      filter_data df years els ets css := by
  apply List.filter_eq_self.mpr
  intro r hr
  exact (List.mem_filter.mp hr).2

theorem strLe_iff {a b : String} : strLe a b ↔ a ≤ b :=
  (String.le_iff_toList_le).symm

theorem mem_trimToPercentile {T : Table} {p : ℚ} {r : Record} (hT : T ≠ []) :
    r ∈ trimToPercentile T p ↔
      r ∈ T ∧ r.Salary_In_Usd ≤ quantile p (T.map Record.Salary_In_Usd) := by
  simp [trimToPercentile, hT, List.mem_filter]

theorem trimToPercentile_sublist (T : Table) (p : ℚ) :
    (trimToPercentile T p).Sublist T := by
  by_cases hT : T = []
  · simp [trimToPercentile, hT]
  · simp only [trimToPercentile, if_neg hT]
    exact List.filter_sublist _

/-- C4: for a nonempty table, `trimToPercentile` keeps exactly the rows
whose salary is at or below the linear-interpolation `p`-quantile of
the salary column; the result is an order-preserving subset of the
input, of size at most the input's; and the empty table is returned
unchanged (the quantile is never consulted for it). -/
theorem C4_trimToPercentile_spec (T : Table) (p : ℚ) :
    (T ≠ [] → ∀ r, r ∈ trimToPercentile T p ↔
      r ∈ T ∧ r.Salary_In_Usd ≤ quantile p (T.map Record.Salary_In_Usd)) ∧
    (trimToPercentile T p).Sublist T ∧
    (trimToPercentile T p).length ≤ T.length ∧
    (T = [] → trimToPercentile T p = T) :=
  ⟨fun hT _ => mem_trimToPercentile hT, trimToPercentile_sublist T p,
    (trimToPercentile_sublist T p).length_le, fun h => by simp [trimToPercentile, h]⟩

/-- Concrete instantiation of `C4_trimToPercentile_spec`: the
0.99-quantile of the salaries {0, 100} is 99, so the zero-salary row is
retained. -/
theorem C4_trimToPercentile_spec_witness :
    (⟨2021, "SE", "FT", "M", 0, "A"⟩ : Record) ∈ trimToPercentile outlierTable (99/100) := by
  apply ((C4_trimToPercentile_spec outlierTable (99/100)).1 (by decide) _).mpr
  refine ⟨by decide, ?_⟩
  norm_num [quantile, outlierTable, List.insertionSort, List.orderedInsert]

/-- C5: the Home page's KPI scalars are computed from the untrimmed
filtered table — the `kpis` component of `homePage` is exactly
`summaryStats` of `filter_data`, so the percentile trim has no effect
on any KPI value.  The separation is substantive: the second conjunct
exhibits a table whose statistics the trim does change. -/
theorem C5_kpis_untrimmed :
    (∀ df years els ets css,
      (homePage df years els ets css).kpis =
        summaryStats (filter_data df years els ets css)) ∧
    (∃ T, summaryStats (trimToPercentile T (99/100)) ≠ summaryStats T) := by
  refine ⟨fun _ _ _ _ _ => rfl, ⟨outlierTable, ?_⟩⟩
  have htrim : trimToPercentile outlierTable (99/100) =
      [⟨2021, "SE", "FT", "M", 0, "A"⟩] := by
    norm_num [trimToPercentile, outlierTable, quantile,
      List.insertionSort, List.orderedInsert, List.filter]
    decide
  intro h
  have h1 := congrArg KPIs.total_records h
  rw [htrim] at h1
  simp only [summaryStats] at h1
  rw [if_neg (by decide : ¬(([⟨2021, "SE", "FT", "M", 0, "A"⟩] : Table) = [])),
    if_neg (by decide : ¬(outlierTable = []))] at h1
  simp [outlierTable] at h1

/-- C7: every aggregation yields well-defined neutral values on the
empty table — the KPI scalars are all zero with "-" as the mode
placeholder, the growth figure is signalled as absent, the trim
returns the empty table, and the top-titles ranking and the filter
return the empty list (all functions are total, so no exception can
occur). -/
theorem C7_empty_table_neutral :
    summaryStats [] = ⟨0, 0, 0, 0, "-"⟩ ∧
    growth [] = none ∧
    (∀ p, trimToPercentile [] p = []) ∧
    (∀ n, top_job_titles [] n = []) ∧
    (∀ years els ets css, filter_data [] years els ets css = []) :=
  ⟨rfl, rfl, fun _ => rfl,
    fun _ => by simp [top_job_titles, nlargestByMean, groupMeanByTitle],
    fun _ _ _ _ => rfl⟩

theorem zipWith_tail_eq_range (f : ℚ → ℚ → ℚ) :
    ∀ l : List ℚ, List.zipWith f l l.tail =
      (List.range (l.length - 1)).map fun i => f (l.getD i 0) (l.getD (i + 1) 0) := by
  intro l
  induction l with
  | nil => simp
  | cons x l' ih =>
    cases l' with
    | nil => simp
    | cons y t =>
      simp only [List.tail_cons, List.zipWith_cons_cons, List.length_cons,
        Nat.add_sub_cancel, List.range_succ_eq_map, List.map_cons, List.map_map,
        List.getD_cons_zero, List.getD_cons_succ]
      refine congrArg (f x y :: ·) ?_
      rw [show List.zipWith f (y :: t) t = List.zipWith f (y :: t) (y :: t).tail from rfl, ih]
      simp [Function.comp, List.length_cons, Nat.add_sub_cancel]

/-- C3: with at least two distinct years, `growth` equals 100 times the
arithmetic mean of the consecutive-year relative changes of the
per-year mean salaries taken in ascending year order (not a single
start-to-end change); with fewer than two distinct years no figure is
produced. -/
theorem C3_growth_spec (T : Table) :
    (2 ≤ (T.map Record.Year).dedup.length →
      growth T = some
        (((List.range ((yearlyMeanSalaries T).length - 1)).map fun i =>
            (yearlyMeanSalaries T).getD (i + 1) 0 / (yearlyMeanSalaries T).getD i 0 - 1).sum
          / (((yearlyMeanSalaries T).length - 1 : ℕ) : ℚ) * 100)) ∧
    ((T.map Record.Year).dedup.length < 2 → growth T = none) := by
  constructor
  · intro h2
    unfold growth
    rw [if_pos h2]
    congr 1
    rw [mean, pct_change, zipWith_tail_eq_range]
    simp
  · intro h
    unfold growth
    rw [if_neg (by omega)]

/-- Concrete instantiation of `C3_growth_spec`: per-year means
{2021 : 100, 2022 : 110, 2023 : 121} give growth (10% + 10%) / 2 = 10%. -/
theorem C3_growth_spec_witness : growth growthTable = some 10 := by
  have hy : yearlyMeanSalaries growthTable = [100, 110, 121] := by
    simp +decide [yearlyMeanSalaries, yearSalaries, growthTable, mean,
      List.insertionSort, List.orderedInsert]
  rw [(C3_growth_spec growthTable).1 (by decide), hy]
  norm_num [List.range_succ]

theorem foldr_max_mem : ∀ ns : List ℕ, ns ≠ [] → ns.foldr max 0 ∈ ns := by
  intro ns
  induction ns with
  | nil => intro h; exact absurd rfl h
  | cons n t ih =>
    intro _
    cases t with
    | nil => simp
    | cons m t' =>
      rw [List.foldr_cons]
      rcases max_choice n ((m :: t').foldr max 0) with h | h
      · rw [h]; exact List.mem_cons_self _ _
      · rw [h]; exact List.mem_cons_of_mem _ (ih (List.cons_ne_nil _ _))

theorem le_foldr_max : ∀ {ns : List ℕ} {x : ℕ}, x ∈ ns → x ≤ ns.foldr max 0 := by
  intro ns
  induction ns with
  | nil => intro x h; cases h
  | cons n t ih =>
    intro x h
    rw [List.foldr_cons]
    rcases List.mem_cons.mp h with rfl | h
    · exact le_max_left _ _
    · exact le_trans (ih h) (le_max_right _ _)

theorem modeSet_ne_nil {l : List String} (h : l ≠ []) : modeSet l ≠ [] := by
  have hd : l.dedup ≠ [] := by simpa [List.dedup_eq_nil] using h
  have hmem : maxCount l ∈ l.dedup.map fun v => l.count v :=
    foldr_max_mem _ (by simpa using hd)
  rcases List.mem_map.mp hmem with ⟨v, hv, hcount⟩
  exact List.ne_nil_of_mem (List.mem_filter.mpr ⟨hv, by simp [hcount]⟩)

/-- C10: on a nonempty table the most-frequent-title KPI is the
alphabetically smallest of the titles attaining the highest frequency
(pandas `Series.mode` returns the tied modes sorted ascending and
`iloc[0]` takes the first): it belongs to the mode set, its frequency
bounds every title's frequency, and it is ≤ every tied mode. -/
theorem C10_mode_deterministic (T : Table) (hT : T ≠ []) :
    (summaryStats T).most_frequent_job_title ∈ modeSet (T.map Record.Job_Title) ∧
    (∀ v, (T.map Record.Job_Title).count v ≤ maxCount (T.map Record.Job_Title)) ∧
    (∀ v ∈ modeSet (T.map Record.Job_Title),
      (summaryStats T).most_frequent_job_title ≤ v) := by
  have htitles : T.map Record.Job_Title ≠ [] := by
    intro h
    exact hT (List.map_eq_nil_iff.mp h)
  have hms : modeSet (T.map Record.Job_Title) ≠ [] := modeSet_ne_nil htitles
  have hperm : modeSorted (T.map Record.Job_Title) ~ modeSet (T.map Record.Job_Title) :=
    List.perm_insertionSort strLe _
  have hsorted : (modeSorted (T.map Record.Job_Title)).Sorted strLe :=
    List.sorted_insertionSort strLe _
  have hmsort : modeSorted (T.map Record.Job_Title) ≠ [] := by
    intro h0
    rw [h0] at hperm
    exact hms hperm.symm.eq_nil
  obtain ⟨a, rest, heq⟩ := List.exists_cons_of_ne_nil hmsort
  have hmft : (summaryStats T).most_frequent_job_title = a := by
    simp [summaryStats, if_neg hT, heq]
  refine ⟨?_, ?_, ?_⟩
  · rw [hmft]
    exact hperm.mem_iff.mp (heq ▸ List.mem_cons_self a rest)
  · intro v
    by_cases hv : v ∈ T.map Record.Job_Title
    · exact le_foldr_max (List.mem_map_of_mem _ (List.mem_dedup.mpr hv))
    · simp [List.count_eq_zero_of_not_mem hv]
  · intro v hvmode
    rw [hmft]
    have hvs : v ∈ modeSorted (T.map Record.Job_Title) := hperm.mem_iff.mpr hvmode
    rw [heq] at hvs
    rcases List.mem_cons.mp hvs with rfl | hvrest
    · exact le_refl _
    · exact strLe_iff.mp (List.rel_of_sorted_cons (heq ▸ hsorted) v hvrest)

/-- Concrete instantiation of `C10_mode_deterministic`: in `tieTable`
the titles "B" and "A" are tied with one occurrence each and the KPI
reports a title that is alphabetically at most "B". -/
theorem C10_mode_deterministic_witness :
    (summaryStats tieTable).most_frequent_job_title ≤ "B" :=
  (C10_mode_deterministic tieTable (by decide)).2.2 "B" (by decide)

theorem pairwise_orderedInsert_descMean (x : String × ℚ) :
    ∀ l : List (String × ℚ), l.Pairwise meanKeyOrder →
      (∀ y ∈ l, x.1 < y.1) →
      (l.orderedInsert descMean x).Pairwise meanKeyOrder := by
  intro l
  induction l with
  | nil =>
    intro _ _
    simp [List.orderedInsert]
  | cons y t ih =>
    intro hp hk
    by_cases hxy : descMean x y
    · simp only [List.orderedInsert, if_pos hxy]
      refine List.pairwise_cons.mpr ⟨?_, hp⟩
      intro z hz
      have hkey : x.1 < z.1 := hk z hz
      have hz2 : z.2 ≤ x.2 := by
        rcases List.mem_cons.mp hz with rfl | hzt
        · exact hxy
        · rcases (List.pairwise_cons.mp hp).1 z hzt with h | h
          · exact le_trans h.le hxy
          · exact le_trans h.1.ge hxy
      rcases lt_or_eq_of_le hz2 with h | h
      · exact Or.inl h
      · exact Or.inr ⟨h.symm, hkey⟩
    · simp only [List.orderedInsert, if_neg hxy]
      have hx2 : x.2 < y.2 := lt_of_not_le hxy
      refine List.pairwise_cons.mpr
        ⟨?_, ih (List.pairwise_cons.mp hp).2 fun z hz => hk z (List.mem_cons_of_mem _ hz)⟩
      intro z hz
      rcases (List.mem_orderedInsert descMean).mp hz with rfl | hzt
      · exact Or.inl hx2
      · exact (List.pairwise_cons.mp hp).1 z hzt

theorem pairwise_insertionSort_descMean :
    ∀ l : List (String × ℚ), l.Pairwise (fun a b => a.1 < b.1) →
      (l.insertionSort descMean).Pairwise meanKeyOrder := by
  intro l
  induction l with
  | nil =>
    intro _
    simp
  | cons x t ih =>
    intro hp
    simp only [List.insertionSort]
    exact pairwise_orderedInsert_descMean x _ (ih (List.pairwise_cons.mp hp).2)
      fun y hy => (List.pairwise_cons.mp hp).1 y ((List.mem_insertionSort descMean).mp hy)

theorem pairwise_keys_groupMeanByTitle (T : Table) :
    (groupMeanByTitle T).Pairwise fun a b => a.1 < b.1 := by
  have hsorted : ((T.map Record.Job_Title).dedup.insertionSort strLe).Sorted strLe :=
    List.sorted_insertionSort strLe _
  have hnodup : ((T.map Record.Job_Title).dedup.insertionSort strLe).Nodup :=
    (List.perm_insertionSort strLe _).nodup_iff.mpr (List.nodup_dedup _)
  have hlt : ((T.map Record.Job_Title).dedup.insertionSort strLe).Pairwise (· < ·) :=
    (hsorted.and hnodup).imp fun h => lt_of_le_of_ne (strLe_iff.mp h.1) h.2
  rw [groupMeanByTitle]
  exact List.pairwise_map.mpr (hlt.imp fun h => h)

/-- C2 (amended): on a table with at least one row, `top_job_titles`
returns at most `n` (title, mean) pairs; the mean of every returned
group is at least the mean of every excluded group; if the table has at
most `n` distinct titles, all groups are returned; and groups tied on
mean are selected by ascending alphabetical title (the key order
`groupby` emits), an excluded tied group always having the
alphabetically larger title. -/
theorem C2_top_job_titles_spec (T : Table) (n : Nat) (hT : T ≠ []) :
    (top_job_titles T n).length ≤ n ∧
    ((groupMeanByTitle T).length ≤ n →
      (top_job_titles T n).Perm (groupMeanByTitle T)) ∧
    (∀ p ∈ top_job_titles T n, ∀ q ∈ groupMeanByTitle T,
      q.1 ∉ (top_job_titles T n).map Prod.fst →
        q.2 ≤ p.2 ∧ (q.2 = p.2 → p.1 < q.1)) := by
  have hperm_asc : top_job_titles T n ~ nlargestByMean n (groupMeanByTitle T) :=
    List.perm_insertionSort ascMean _
  have hperm_sort : (groupMeanByTitle T).insertionSort descMean ~ groupMeanByTitle T :=
    List.perm_insertionSort descMean _
  have hPW : ((groupMeanByTitle T).insertionSort descMean).Pairwise meanKeyOrder :=
    pairwise_insertionSort_descMean _ (pairwise_keys_groupMeanByTitle T)
  refine ⟨?_, ?_, ?_⟩
  · rw [hperm_asc.length_eq]
    exact List.length_take_le n _
  · intro hle
    have htake : nlargestByMean n (groupMeanByTitle T) =
        (groupMeanByTitle T).insertionSort descMean := by
      rw [nlargestByMean]
      exact List.take_of_length_le (by rw [List.length_insertionSort]; exact hle)
    exact hperm_asc.trans (htake ▸ hperm_sort)
  · intro p hp q hq hq1
    have hp' : p ∈ ((groupMeanByTitle T).insertionSort descMean).take n :=
      hperm_asc.mem_iff.mp hp
    have hq' : q ∈ (groupMeanByTitle T).insertionSort descMean :=
      hperm_sort.mem_iff.mpr hq
    have hqdrop : q ∈ ((groupMeanByTitle T).insertionSort descMean).drop n := by
      rcases List.mem_append.mp
          ((List.take_append_drop n ((groupMeanByTitle T).insertionSort descMean)).symm ▸ hq')
        with hqt | hqd
      · exact absurd (List.mem_map_of_mem Prod.fst (hperm_asc.mem_iff.mpr hqt)) hq1
      · exact hqd
    have hPW2 : (((groupMeanByTitle T).insertionSort descMean).take n ++
        ((groupMeanByTitle T).insertionSort descMean).drop n).Pairwise meanKeyOrder := by
      rwa [List.take_append_drop]
    have hrel : meanKeyOrder p q := (List.pairwise_append.mp hPW2).2.2 p hp' q hqdrop
    rcases hrel with h | h
    · exact ⟨h.le, fun he => absurd (he ▸ h) (lt_irrefl _)⟩
    · exact ⟨h.1.ge, fun _ => h.2⟩

theorem groupMeanByTitle_ex3 :
    groupMeanByTitle ex3Table = [("A", 100), ("B", 300), ("C", 200)] := by
  simp +decide [groupMeanByTitle, titleSalaries, ex3Table, mean,
    List.insertionSort, List.orderedInsert, List.filter]

theorem top_job_titles_ex3 :
    top_job_titles ex3Table 2 = [("C", 200), ("B", 300)] := by
  simp only [top_job_titles, nlargestByMean, groupMeanByTitle_ex3]
  simp +decide [List.insertionSort, List.orderedInsert, descMean, ascMean]

/-- Concrete instantiation of `C2_top_job_titles_spec` on a three-title
table with `n = 2`: two pairs are returned and the excluded title "A"
(mean 100) has mean at most that of the returned title "C" (mean 200). -/
theorem C2_top_job_titles_spec_witness :
    (top_job_titles ex3Table 2).length ≤ 2 ∧
    ((100 : ℚ) ≤ 200 ∧ ((100 : ℚ) = 200 → ("C" : String) < "A")) :=
  ⟨(C2_top_job_titles_spec ex3Table 2 (by decide)).1,
   (C2_top_job_titles_spec ex3Table 2 (by decide)).2.2 ("C", 200)
     (by rw [top_job_titles_ex3]; exact List.mem_cons_self _ _) ("A", 100)
     (by rw [groupMeanByTitle_ex3]; exact List.mem_cons_self _ _)
     (by rw [top_job_titles_ex3]; decide)⟩

/-- C2 is refuted as stated: in `tieTable` the title "B" is encountered
first and both titles have mean 200, yet `top_job_titles` with `n = 1`
selects "A" — the tie is broken by the alphabetical key order `groupby`
produces, not by the order in which groups are first encountered in the
input. -/
theorem C2_tie_not_encounter_order :
    tieTable.map Record.Job_Title = ["B", "A"] ∧
    top_job_titles tieTable 1 = [("A", 200)] ∧
    (top_job_titles tieTable 1).map Prod.fst ≠ ["B"] := by
  have hgm : groupMeanByTitle tieTable = [("A", 200), ("B", 200)] := by
    simp +decide [groupMeanByTitle, titleSalaries, tieTable, mean,
      List.insertionSort, List.orderedInsert, List.filter]
  have htop : top_job_titles tieTable 1 = [("A", 200)] := by
    simp only [top_job_titles, nlargestByMean, hgm]
    simp +decide [List.insertionSort, List.orderedInsert, descMean, ascMean]
  refine ⟨by decide, htop, ?_⟩
  rw [htop]
  decide

/-- C6 (amended): for a nonzero comparison base the relative-difference
insights of both comparison pages equal `(meanA/meanB - 1) * 100`, and
the code's insight then refines the spec's contract; at `meanB = 0` the
code performs the division unconditionally instead of signalling
"undefined" (see the counterexample), though no exception is raised. -/
theorem C6_relative_difference_spec (meanA meanB : ℚ) (hB : meanB ≠ 0) :
    diff meanA meanB = (meanA / meanB - 1) * 100 ∧
    delta meanB meanA = (meanA / meanB - 1) * 100 ∧
    roleComparisonInsight meanA meanB = compareTwoGroupsSpec meanA meanB := by
  have h1 : diff meanA meanB = (meanA / meanB - 1) * 100 := by
    rw [diff, sub_div, div_self hB]
  refine ⟨h1, rfl, ?_⟩
  rw [roleComparisonInsight, compareTwoGroupsSpec, if_neg hB, h1]

/-- Concrete instantiation of `C6_relative_difference_spec`: means of
150 against 100 give a relative difference of 50% on both pages. -/
theorem C6_relative_difference_spec_witness :
    diff 150 100 = 50 ∧ delta 100 150 = 50 := by
  have h := C6_relative_difference_spec 150 100 (by norm_num)
  refine ⟨?_, ?_⟩
  · rw [h.1]; norm_num
  · rw [h.2.1]; norm_num

/-- C6 is refuted as stated at `meanB = 0`: the spec's contract signals
"undefined" there, but the comparison pages still produce a numeric
result — the division is performed unconditionally (in the
floating-point program it propagates as infinity into the rendered
message). -/
theorem C6_zero_mean_counterexample :
    compareTwoGroupsSpec 150 0 = none ∧
    roleComparisonInsight 150 0 ≠ compareTwoGroupsSpec 150 0 := by
  constructor
  · simp [compareTwoGroupsSpec]
  · simp [compareTwoGroupsSpec, roleComparisonInsight]

/-- C8 (amended): the Home page and the Main Courts page halt on a
missing required column before any computation runs, but the Overview,
Work Mode and Role Comparison pages contain no schema validation and
proceed straight to their computations whatever columns are present. -/
theorem C8_schema_validation_spec (cols : List String) :
    (¬ (∀ c ∈ REQUIRED_COLUMNS, c ∈ cols) → homeSchemaCheck cols = .halted) ∧
    (¬ (∀ c ∈ COLUNAS, c ∈ cols) → mainCourtsSchemaCheck cols = .halted) ∧
    ((∀ c ∈ REQUIRED_COLUMNS, c ∈ cols) → homeSchemaCheck cols = .rendered) ∧
    overviewSchemaCheck cols = .rendered ∧
    workModeSchemaCheck cols = .rendered ∧
    roleComparisonSchemaCheck cols = .rendered := by
  refine ⟨?_, ?_, ?_, rfl, rfl, rfl⟩
  · intro h
    unfold homeSchemaCheck
    rw [if_neg (by simpa [List.all_eq_true] using h)]
  · intro h
    unfold mainCourtsSchemaCheck
    rw [if_neg (by simpa [List.all_eq_true] using h)]
  · intro h
    unfold homeSchemaCheck
    rw [if_pos (by simpa [List.all_eq_true] using h)]

/-- Concrete instantiation of `C8_schema_validation_spec`: a dataset
holding only a "Year" column halts the Home page, while a complete
schema renders it. -/
theorem C8_schema_validation_spec_witness :
    homeSchemaCheck ["Year"] = .halted ∧
    homeSchemaCheck REQUIRED_COLUMNS = .rendered :=
  ⟨(C8_schema_validation_spec ["Year"]).1 (by decide),
   (C8_schema_validation_spec REQUIRED_COLUMNS).2.2.1 (by decide)⟩

/-- C8 is refuted as stated: on a dataset with no columns at all the
Home page halts at validation, but the Overview page (like the Work
Mode and Role Comparison pages) proceeds to computation — the claimed
validation halt does not happen on every dashboard page. -/
theorem C8_overview_no_validation :
    homeSchemaCheck [] = .halted ∧
    mainCourtsSchemaCheck [] = .halted ∧
    overviewSchemaCheck [] = .rendered ∧
    workModeSchemaCheck [] = .rendered ∧
    roleComparisonSchemaCheck [] = .rendered := by
  refine ⟨?_, ?_, rfl, rfl, rfl⟩ <;> decide

end Theorems

end Dashboard
